import Mathlib

/-!
Verification of `django-visitor` (`visitors/decorators.py`): a shallow
embedding of the visitor access-control gate (`user_is_visitor` and its
`inner` wrapper), the self-service redirect flow
(`redirect_to_self_service`), and the audit-log write.

The request/response plumbing, the credential store (`models.py`) and the
URL reversal are external collaborators; the parts of them the gate
observes are modelled from the spec where the repository source is not
available, and each such definition is marked `Modelled from the spec:`.
-/

namespace Visitors

/-- SCOPE_ANY, the universal scope sentinel (`decorators.py` line 19). -/
def SCOPE_ANY : String := "*"

/-- Modelled from the spec: a credential row of the credential store
(`visitors/models.py` is not in the sources; fields are those named by the
spec data model and by the call in `redirect_to_self_service`):
a unique identifier assigned at creation, an email, a scope tag, an
active flag, and an open key-value context payload. -/
structure Visitor where
  uuid : Nat
  email : String
  scope : String
  is_active : Bool
  context : List (String × Bool)
deriving Repr, DecidableEq

/-- Modelled from the spec: an audit log row (`VisitorLog`); it records the
status code handed to `create_log` for the credential of the request. -/
structure VisitorLog where
  visitor_scope : String
  status_code : Nat
deriving Repr, DecidableEq

/-- The slice of the Django `HttpRequest` the gate reads:
`request.user.is_visitor`, `request.visitor.scope` (meaningful whenever
`user_is_visitor` is set, as the middleware guarantees), and
`request.get_full_path()`. -/
structure HttpRequest where
  user_is_visitor : Bool
  visitor_scope : String
  full_path : String
deriving Repr, DecidableEq

/-- The slice of a Django `HttpResponse` the gate reads: the status code,
plus the body so that "returned unmodified" is observable. -/
structure HttpResponse where
  status_code : Nat
  content : String
deriving Repr, DecidableEq

/-- A positional argument of the wrapped view: either an `HttpRequest` or
anything else (e.g. `self` when decorating a method). -/
inductive Arg where
  | req (r : HttpRequest)
  | other (n : Nat)
deriving Repr, DecidableEq

/-- `_get_request_arg(*args)`: scan the positional arguments for the first
one that is an `HttpRequest` (`decorators.py` lines 45-50). -/
def get_request_arg : List Arg → Option HttpRequest
  | [] => none
  | Arg.req r :: _ => some r
  | Arg.other _ :: rest => get_request_arg rest

/-- The state the decorator closure captures at decoration time
(`scope`, `bypass_func`, `log_visit`, `self_service`). -/
structure GateConfig where
  scope : String
  bypass_func : Option (HttpRequest → Bool)
  log_visit : Bool
  self_service : Bool

/-- `user_is_visitor(view_func=None, scope, ...)` at decoration time:
`if not scope: raise ValueError(...)` (lines 80-81), otherwise the
parameters are captured (whether directly or through `functools.partial`)
for the `inner` wrapper. `Except.error` models the raised `ValueError`. -/
def user_is_visitor (scope : String) (bypass_func : Option (HttpRequest → Bool))
    (log_visit self_service : Bool) : Except String GateConfig :=
  if scope = "" then
    Except.error "Decorator scope cannot be empty."
  else
    Except.ok { scope := scope, bypass_func := bypass_func,
                log_visit := log_visit, self_service := self_service }

/-- The external store's visible state: credential rows and audit-log rows,
with the next unique identifier to hand out. -/
structure DB where
  visitors : List Visitor
  visitor_logs : List VisitorLog
  next_uuid : Nat
deriving Repr, DecidableEq

/-- Modelled from the spec: `Visitor.objects.create(...)` appends one new
credential row and assigns it a fresh unique identifier. -/
def objects_create (db : DB) (email scope : String) (is_active : Bool)
    (context : List (String × Bool)) : Visitor × DB :=
  let v : Visitor := { uuid := db.next_uuid, email := email, scope := scope,
                       is_active := is_active, context := context }
  (v, { db with visitors := db.visitors ++ [v], next_uuid := db.next_uuid + 1 })

/-- Modelled from the spec: `VisitorLog.objects.create_log(request,
status_code)` appends exactly one audit row recording the given status code
for the request's credential. -/
def create_log (db : DB) (request : HttpRequest) (status_code : Nat) : DB :=
  { db with visitor_logs := db.visitor_logs ++
      [{ visitor_scope := request.visitor_scope, status_code := status_code }] }

/-- Modelled from the spec: `reverse("visitors:self-service",
kwargs=...)` builds the URL of the self-service enrollment endpoint
parameterized by the new credential's identifier. -/
def reverse_self_service (visitor_uuid : Nat) : String :=
  "/visitors/self-service/" ++ toString visitor_uuid ++ "/"

/-- `redirect_to_self_service(request, scope)` (lines 133-150): create an
inactive placeholder credential tagged as self-service, and redirect to the
enrollment URL with the original full path as the `next` parameter.
Returns the redirect URL together with the updated store. -/
def redirect_to_self_service (db : DB) (request : HttpRequest) (scope : String) :
    String × DB :=
  let r := objects_create db "anon@example.com" scope false [("self-service", true)]
  (reverse_self_service r.1.uuid ++ "?next=" ++ request.full_path, r.2)

/-- Everything `inner` can do with control: return the view's response,
return a self-service `HttpResponseRedirect`, raise `VisitorAccessDenied`
(message and required scope), raise `ValueError`, or propagate a store
failure from the audit-log write. -/
inductive GateOutcome where
  | ok (resp : HttpResponse)
  | redirect (url : String)
  | visitorAccessDenied (message : String) (scope : String)
  | valueError (message : String)
  | storeError (message : String)
deriving Repr, DecidableEq

/-- One run of the wrapped view: the control outcome, how many times the
bypass predicate and the wrapped view were invoked, and the store state
afterwards. -/
structure RunResult where
  outcome : GateOutcome
  bypass_calls : Nat
  handler_calls : Nat
  db : DB
deriving Repr, DecidableEq

/-- `if bypass_func and bypass_func(request)` (line 107): true only when a
predicate is configured and it returns true for this request. -/
def bypass_applies (cfg : GateConfig) (request : HttpRequest) : Bool :=
  match cfg.bypass_func with
  | none => false
  | some f => f request

/-- `_raise_or_redirect(message)` (lines 110-114): redirect to self-service
when configured, else raise `VisitorAccessDenied` carrying the scope. -/
def raise_or_redirect (cfg : GateConfig) (db : DB) (request : HttpRequest)
    (message : String) : GateOutcome × DB :=
  if cfg.self_service then
    let r := redirect_to_self_service db request cfg.scope
    (GateOutcome.redirect r.1, r.2)
  else
    (GateOutcome.visitorAccessDenied message cfg.scope, db)

/-- `inner(*args, **kwargs)` (lines 93-128). `log_store_ok` is modelled
from the spec: whether the external store's audit-log write succeeds; on
failure the store's error propagates (spec section 7). The keyword
arguments are passed to the view but never scanned for the request. -/
def inner (view_func : List Arg → List Arg → HttpResponse) (cfg : GateConfig)
    (log_store_ok : Bool) (db : DB) (args kwargs : List Arg) : RunResult :=
  match get_request_arg args with
  | none =>
      { outcome := GateOutcome.valueError "Request argument missing.",
        bypass_calls := 0, handler_calls := 0, db := db }
  | some request =>
      let bcalls : Nat := if cfg.bypass_func.isSome then 1 else 0
      if bypass_applies cfg request then
        { outcome := GateOutcome.ok (view_func args kwargs),
          bypass_calls := bcalls, handler_calls := 1, db := db }
      else if request.user_is_visitor = false then
        let r := raise_or_redirect cfg db request "Visitor access denied"
        { outcome := r.1, bypass_calls := bcalls, handler_calls := 0, db := r.2 }
      else if ¬ (cfg.scope = SCOPE_ANY ∨ cfg.scope = request.visitor_scope) then
        let r := raise_or_redirect cfg db request "Visitor access denied (invalid scope)"
        { outcome := r.1, bypass_calls := bcalls, handler_calls := 0, db := r.2 }
      else
        let response := view_func args kwargs
        if cfg.log_visit then
          if log_store_ok then
            { outcome := GateOutcome.ok response, bypass_calls := bcalls,
              handler_calls := 1, db := create_log db request response.status_code }
          else
            { outcome := GateOutcome.storeError "VisitorLog write failed",
              bypass_calls := bcalls, handler_calls := 1, db := db }
        else
          { outcome := GateOutcome.ok response, bypass_calls := bcalls,
            handler_calls := 1, db := db }

/-- An empty store, for concrete runs. -/
def db0 : DB := { visitors := [], visitor_logs := [], next_uuid := 0 }

/-- A concrete 200 response. -/
def okResponse : HttpResponse := { status_code := 200, content := "OK" }

/-- A concrete view returning `okResponse`. -/
def okView : List Arg → List Arg → HttpResponse := fun _ _ => okResponse

/-- A request carrying an active credential scoped `"foo"`. -/
def reqFoo : HttpRequest :=
  { user_is_visitor := true, visitor_scope := "foo", full_path := "/app?q=1" }

/-- A request with no credential. -/
def reqAnon : HttpRequest :=
  { user_is_visitor := false, visitor_scope := "", full_path := "/" }

/-- A request carrying an active credential whose scope is empty. -/
def reqEmptyScope : HttpRequest :=
  { user_is_visitor := true, visitor_scope := "", full_path := "/" }

/-- A gate requiring scope `"foo"`, defaults otherwise. -/
def cfgFoo : GateConfig :=
  { scope := "foo", bypass_func := none, log_visit := true, self_service := false }

/-- A gate requiring the wildcard scope, defaults otherwise. -/
def cfgStar : GateConfig :=
  { scope := "*", bypass_func := none, log_visit := true, self_service := false }

/-- A gate requiring scope `"foo"` with self-service enabled. -/
def cfgFooSelf : GateConfig :=
  { scope := "foo", bypass_func := none, log_visit := true, self_service := true }

/-- A gate requiring scope `"foo"` with an always-true bypass predicate. -/
def cfgBypass : GateConfig :=
  { scope := "foo", bypass_func := some (fun _ => true), log_visit := true,
    self_service := false }

theorem string_data_append (a b : String) : (a ++ b).data = a.data ++ b.data := by
  cases a
  cases b
  rfl

/-- On any denial (no credential, or failed scope check) with no bypass,
`inner` returns what `_raise_or_redirect` returns for some message, and the
view is never invoked. -/
theorem inner_denied (view_func : List Arg → List Arg → HttpResponse)
    (cfg : GateConfig) (lok : Bool) (db : DB) (args kwargs : List Arg)
    (request : HttpRequest)
    (hreq : get_request_arg args = some request)
    (hbyp : bypass_applies cfg request = false)
    (hdeny : request.user_is_visitor = false ∨
      ¬ (cfg.scope = SCOPE_ANY ∨ cfg.scope = request.visitor_scope)) :
    ∃ m, inner view_func cfg lok db args kwargs =
      { outcome := (raise_or_redirect cfg db request m).1,
        bypass_calls := if cfg.bypass_func.isSome then 1 else 0,
        handler_calls := 0,
        db := (raise_or_redirect cfg db request m).2 } := by
  rcases hdeny with h | h
  · exact ⟨"Visitor access denied", by simp [inner, hreq, hbyp, h]⟩
  · cases hv : request.user_is_visitor
    · exact ⟨"Visitor access denied", by simp [inner, hreq, hbyp, hv]⟩
    · exact ⟨"Visitor access denied (invalid scope)", by simp [inner, hreq, hbyp, hv, h]⟩

/-- C1: for every request carrying an active credential whose scope equals
the gate's required scope, with the bypass predicate absent or false (and
the audit store healthy), the gate invokes the wrapped view with the
original arguments and returns its response unmodified. -/
theorem C1_scope_match_returns_handler_response
    (view_func : List Arg → List Arg → HttpResponse) (cfg : GateConfig)
    (db : DB) (args kwargs : List Arg) (request : HttpRequest)
    (hreq : get_request_arg args = some request)
    (hbyp : bypass_applies cfg request = false)
    (hvis : request.user_is_visitor = true)
    (hscope : request.visitor_scope = cfg.scope) :
    (inner view_func cfg true db args kwargs).outcome
        = GateOutcome.ok (view_func args kwargs) ∧
    (inner view_func cfg true db args kwargs).handler_calls = 1 := by
  have hsc : cfg.scope = SCOPE_ANY ∨ cfg.scope = request.visitor_scope :=
    Or.inr hscope.symm
  cases hl : cfg.log_visit <;>
    simp [inner, hreq, hbyp, hvis, hsc, hl]

/-- C1 witness: `reqFoo` against `cfgFoo` returns `okResponse` with the
view invoked once. -/
theorem C1_witness :
    (inner okView cfgFoo true db0 [Arg.req reqFoo] []).outcome
        = GateOutcome.ok (okView [Arg.req reqFoo] []) ∧
    (inner okView cfgFoo true db0 [Arg.req reqFoo] []).handler_calls = 1 :=
  C1_scope_match_returns_handler_response okView cfgFoo db0 [Arg.req reqFoo] []
    reqFoo rfl rfl rfl rfl

/-- C2 counterexample: a gate whose required scope is the wildcard `"*"`,
reached by an active credential scoped `"foo"` (a scope differing from both
the required scope and the wildcard), with self-service off and no bypass,
invokes the view and returns its response instead of denying. -/
theorem C2_counterexample_wildcard_required_scope_allows :
    cfgStar.self_service = false ∧
    bypass_applies cfgStar reqFoo = false ∧
    reqFoo.user_is_visitor = true ∧
    reqFoo.visitor_scope ≠ cfgStar.scope ∧
    reqFoo.visitor_scope ≠ SCOPE_ANY ∧
    (inner okView cfgStar true db0 [Arg.req reqFoo] []).outcome
        = GateOutcome.ok okResponse ∧
    (inner okView cfgStar true db0 [Arg.req reqFoo] []).handler_calls = 1 :=
  ⟨rfl, rfl, rfl, by decide, by decide, by decide, by decide⟩

/-- C2 (amended): for every request that either lacks an active credential
or carries a credential whose scope differs from both the required scope
and the wildcard sentinel while the required scope is itself not the
wildcard, with self-service off and no bypass, the gate raises the
access-denied signal carrying the required scope and never invokes the
view. -/
theorem C2_amended_denied_signal_carries_scope
    (view_func : List Arg → List Arg → HttpResponse) (cfg : GateConfig)
    (lok : Bool) (db : DB) (args kwargs : List Arg) (request : HttpRequest)
    (hreq : get_request_arg args = some request)
    (hbyp : bypass_applies cfg request = false)
    (hss : cfg.self_service = false)
    (hdeny : request.user_is_visitor = false ∨
      (request.visitor_scope ≠ cfg.scope ∧ request.visitor_scope ≠ SCOPE_ANY ∧
        cfg.scope ≠ SCOPE_ANY)) :
    (∃ m, (inner view_func cfg lok db args kwargs).outcome
        = GateOutcome.visitorAccessDenied m cfg.scope) ∧
    (inner view_func cfg lok db args kwargs).handler_calls = 0 := by
  have hdeny2 : request.user_is_visitor = false ∨
      ¬ (cfg.scope = SCOPE_ANY ∨ cfg.scope = request.visitor_scope) := by
    rcases hdeny with h | ⟨h1, _, h3⟩
    · exact Or.inl h
    · refine Or.inr ?_
      rintro (h | h)
      · exact h3 h
      · exact h1 h.symm
  obtain ⟨m, hm⟩ := inner_denied view_func cfg lok db args kwargs request hreq hbyp hdeny2
  refine ⟨⟨m, ?_⟩, ?_⟩ <;> rw [hm] <;> simp [raise_or_redirect, hss]

/-- C2 witness: a request with no credential against `cfgFoo` yields the
access-denied signal carrying scope `"foo"` and zero view invocations. -/
theorem C2_amended_witness :
    (∃ m, (inner okView cfgFoo true db0 [Arg.req reqAnon] []).outcome
        = GateOutcome.visitorAccessDenied m cfgFoo.scope) ∧
    (inner okView cfgFoo true db0 [Arg.req reqAnon] []).handler_calls = 0 :=
  C2_amended_denied_signal_carries_scope okView cfgFoo true db0
    [Arg.req reqAnon] [] reqAnon rfl rfl rfl (Or.inl rfl)

/-- C3: with self-service on, any denial (no credential or failed scope
check) surfaces no error: the gate returns a redirect, and exactly one new
credential is created, inactive, with the required scope and a
self-service marker in its context. -/
theorem C3_self_service_redirects_and_mints_inactive_credential
    (view_func : List Arg → List Arg → HttpResponse) (cfg : GateConfig)
    (lok : Bool) (db : DB) (args kwargs : List Arg) (request : HttpRequest)
    (hreq : get_request_arg args = some request)
    (hbyp : bypass_applies cfg request = false)
    (hss : cfg.self_service = true)
    (hdeny : request.user_is_visitor = false ∨
      ¬ (cfg.scope = SCOPE_ANY ∨ cfg.scope = request.visitor_scope)) :
    ∃ url v,
      (inner view_func cfg lok db args kwargs).outcome = GateOutcome.redirect url ∧
      (inner view_func cfg lok db args kwargs).db.visitors = db.visitors ++ [v] ∧
      v.is_active = false ∧
      v.scope = cfg.scope ∧
      v.context = [("self-service", true)] ∧
      (inner view_func cfg lok db args kwargs).handler_calls = 0 := by
  obtain ⟨m, hm⟩ := inner_denied view_func cfg lok db args kwargs request hreq hbyp hdeny
  refine ⟨(redirect_to_self_service db request cfg.scope).1,
    { uuid := db.next_uuid, email := "anon@example.com", scope := cfg.scope,
      is_active := false, context := [("self-service", true)] },
    ?_, ?_, rfl, rfl, rfl, ?_⟩ <;> rw [hm] <;>
    simp [raise_or_redirect, hss, redirect_to_self_service, objects_create]

/-- C3 witness: a credential-less request against the self-service gate
`cfgFooSelf` yields a redirect and one new inactive `"foo"`-scoped
credential. -/
theorem C3_witness :
    ∃ url v,
      (inner okView cfgFooSelf true db0 [Arg.req reqAnon] []).outcome
          = GateOutcome.redirect url ∧
      (inner okView cfgFooSelf true db0 [Arg.req reqAnon] []).db.visitors
          = db0.visitors ++ [v] ∧
      v.is_active = false ∧
      v.scope = cfgFooSelf.scope ∧
      v.context = [("self-service", true)] ∧
      (inner okView cfgFooSelf true db0 [Arg.req reqAnon] []).handler_calls = 0 :=
  C3_self_service_redirects_and_mints_inactive_credential okView cfgFooSelf true
    db0 [Arg.req reqAnon] [] reqAnon rfl rfl rfl (Or.inl rfl)

/-- C4: on the allowed, non-bypassed path with a healthy store, exactly one
audit row is appended when `log_visit` is true — its status code being the
view's returned status code — and none when `log_visit` is false. -/
theorem C4_one_log_row_iff_log_visit
    (view_func : List Arg → List Arg → HttpResponse) (cfg : GateConfig)
    (db : DB) (args kwargs : List Arg) (request : HttpRequest)
    (hreq : get_request_arg args = some request)
    (hbyp : bypass_applies cfg request = false)
    (hvis : request.user_is_visitor = true)
    (hscope : cfg.scope = SCOPE_ANY ∨ cfg.scope = request.visitor_scope) :
    (inner view_func cfg true db args kwargs).db.visitor_logs =
      (if cfg.log_visit then
        db.visitor_logs ++
          [{ visitor_scope := request.visitor_scope,
             status_code := (view_func args kwargs).status_code }]
      else db.visitor_logs) := by
  cases hl : cfg.log_visit <;>
    simp [inner, hreq, hbyp, hvis, hscope, hl, create_log]

/-- C4 witness: `reqFoo` against `cfgFoo` (logging on) appends exactly the
one audit row with status 200. -/
theorem C4_witness :
    (inner okView cfgFoo true db0 [Arg.req reqFoo] []).db.visitor_logs =
      (if cfgFoo.log_visit then
        db0.visitor_logs ++
          [{ visitor_scope := reqFoo.visitor_scope,
             status_code := (okView [Arg.req reqFoo] []).status_code }]
      else db0.visitor_logs) :=
  C4_one_log_row_iff_log_visit okView cfgFoo db0 [Arg.req reqFoo] [] reqFoo
    rfl rfl rfl (Or.inr rfl)

/-- C5 counterexample: a gate built with the wildcard required scope
accepts an active credential whose scope is the empty string — the view
runs and its response is returned, contradicting the claim that an empty
credential scope is always denied. -/
theorem C5_counterexample_wildcard_gate_accepts_empty_scope :
    user_is_visitor "*" none true false = Except.ok cfgStar ∧
    reqEmptyScope.user_is_visitor = true ∧
    reqEmptyScope.visitor_scope = "" ∧
    bypass_applies cfgStar reqEmptyScope = false ∧
    (inner okView cfgStar true db0 [Arg.req reqEmptyScope] []).outcome
        = GateOutcome.ok okResponse ∧
    (inner okView cfgStar true db0 [Arg.req reqEmptyScope] []).handler_calls = 1 := by
  have hne : ("*" : String) ≠ "" := by decide
  refine ⟨by simp [user_is_visitor, hne, cfgStar], rfl, rfl, rfl, by decide, by decide⟩

/-- C5 (amended): for every gate built by the decorator whose required
scope is not the wildcard sentinel, a request carrying an active credential
whose scope is the empty string is denied — the view never runs, and the
denial is the access-denied signal or the self-service redirect according
to configuration. A wildcard gate, by contrast, accepts such a credential. -/
theorem C5_amended_empty_scope_denied_by_named_gates
    (view_func : List Arg → List Arg → HttpResponse) (s : String)
    (bf : Option (HttpRequest → Bool)) (lv ss : Bool) (cfg : GateConfig)
    (lok : Bool) (db : DB) (args kwargs : List Arg) (request : HttpRequest)
    (hcfg : user_is_visitor s bf lv ss = Except.ok cfg)
    (hstar : cfg.scope ≠ SCOPE_ANY)
    (hreq : get_request_arg args = some request)
    (hbyp : bypass_applies cfg request = false)
    (hvis : request.user_is_visitor = true)
    (hempty : request.visitor_scope = "") :
    (inner view_func cfg lok db args kwargs).handler_calls = 0 ∧
    (cfg.self_service = false →
      ∃ m, (inner view_func cfg lok db args kwargs).outcome
          = GateOutcome.visitorAccessDenied m cfg.scope) ∧
    (cfg.self_service = true →
      ∃ u, (inner view_func cfg lok db args kwargs).outcome
          = GateOutcome.redirect u) := by
  have hs : s ≠ "" := by
    intro h
    rw [h] at hcfg
    simp [user_is_visitor] at hcfg
  have hcs : cfg.scope = s := by
    simp [user_is_visitor, hs] at hcfg
    rw [← hcfg]
  have hsc : ¬ (cfg.scope = SCOPE_ANY ∨ cfg.scope = request.visitor_scope) := by
    rintro (h | h)
    · exact hstar h
    · rw [hempty] at h
      exact hs (hcs ▸ h)
  obtain ⟨m, hm⟩ := inner_denied view_func cfg lok db args kwargs request hreq hbyp
    (Or.inr hsc)
  refine ⟨by rw [hm], ?_, ?_⟩
  · intro h
    exact ⟨m, by rw [hm]; simp [raise_or_redirect, h]⟩
  · intro h
    exact ⟨(redirect_to_self_service db request cfg.scope).1,
      by rw [hm]; simp [raise_or_redirect, h]⟩

/-- C5 witness: the `"foo"` gate denies an active credential whose scope is
empty, with the view never invoked. -/
theorem C5_amended_witness :
    (inner okView cfgFoo true db0 [Arg.req reqEmptyScope] []).handler_calls = 0 ∧
    (cfgFoo.self_service = false →
      ∃ m, (inner okView cfgFoo true db0 [Arg.req reqEmptyScope] []).outcome
          = GateOutcome.visitorAccessDenied m cfgFoo.scope) ∧
    (cfgFoo.self_service = true →
      ∃ u, (inner okView cfgFoo true db0 [Arg.req reqEmptyScope] []).outcome
          = GateOutcome.redirect u) :=
  C5_amended_empty_scope_denied_by_named_gates okView "foo" none true false
    cfgFoo true db0 [Arg.req reqEmptyScope] [] reqEmptyScope rfl (by decide)
    rfl rfl rfl rfl

/-- C6: whenever a bypass predicate is configured and returns true for the
request, the gate invokes the view with the original arguments and returns
its response, and the store is untouched — no audit row and no credential
is created, whatever `log_visit` and the credential state are. -/
theorem C6_bypass_runs_handler_and_touches_nothing
    (view_func : List Arg → List Arg → HttpResponse) (cfg : GateConfig)
    (lok : Bool) (db : DB) (args kwargs : List Arg) (request : HttpRequest)
    (f : HttpRequest → Bool)
    (hreq : get_request_arg args = some request)
    (hf : cfg.bypass_func = some f)
    (ht : f request = true) :
    inner view_func cfg lok db args kwargs =
      { outcome := GateOutcome.ok (view_func args kwargs),
        bypass_calls := 1, handler_calls := 1, db := db } := by
  have hb : bypass_applies cfg request = true := by
    simp [bypass_applies, hf, ht]
  simp [inner, hreq, hb, hf]

/-- C6 witness: the always-true bypass gate passes a credential-less
request straight to the view, leaving the store empty. -/
theorem C6_witness :
    inner okView cfgBypass true db0 [Arg.req reqAnon] [] =
      { outcome := GateOutcome.ok (okView [Arg.req reqAnon] []),
        bypass_calls := 1, handler_calls := 1, db := db0 } :=
  C6_bypass_runs_handler_and_touches_nothing okView cfgBypass true db0
    [Arg.req reqAnon] [] reqAnon (fun _ => true) rfl rfl rfl

/-- C7: decorating with an empty required scope raises `ValueError` at
decoration time, before any request is processed; every non-empty required
scope is accepted and captured in the gate's configuration. -/
theorem C7_empty_scope_fails_at_decoration_time
    (s : String) (bf : Option (HttpRequest → Bool)) (lv ss : Bool) :
    (s = "" → user_is_visitor s bf lv ss =
        Except.error "Decorator scope cannot be empty.") ∧
    (s ≠ "" → user_is_visitor s bf lv ss =
        Except.ok { scope := s, bypass_func := bf, log_visit := lv,
                    self_service := ss }) := by
  constructor
  · intro h
    simp [user_is_visitor, h]
  · intro h
    simp [user_is_visitor, h]

/-- C7 witness: the empty scope is rejected, scope `"read"` is accepted. -/
theorem C7_witness :
    user_is_visitor "" none true false =
      Except.error "Decorator scope cannot be empty." ∧
    user_is_visitor "read" none true false =
      Except.ok { scope := "read", bypass_func := none, log_visit := true,
                  self_service := false } :=
  ⟨(C7_empty_scope_fails_at_decoration_time "" none true false).1 rfl,
   (C7_empty_scope_fails_at_decoration_time "read" none true false).2 (by decide)⟩

/-- C8: every self-service issuance creates exactly one credential and
returns a redirect URL in which the new credential's identifier occurs and
which carries the original request's full path as the trailing `next`
query parameter. -/
theorem C8_redirect_embeds_uuid_and_next_path
    (db : DB) (request : HttpRequest) (scope : String) :
    ∃ v : Visitor,
      (redirect_to_self_service db request scope).2.visitors
          = db.visitors ++ [v] ∧
      (∃ s t, s ++ (toString v.uuid).data ++ t
          = (redirect_to_self_service db request scope).1.data) ∧
      (∃ p, p ++ ("?next=" ++ request.full_path).data
          = (redirect_to_self_service db request scope).1.data) := by
  refine ⟨{ uuid := db.next_uuid, email := "anon@example.com", scope := scope,
            is_active := false, context := [("self-service", true)] },
    ?_, ?_, ?_⟩
  · simp [redirect_to_self_service, objects_create]
  · refine ⟨("/visitors/self-service/" : String).data,
      (("/" : String) ++ "?next=" ++ request.full_path).data, ?_⟩
    simp [redirect_to_self_service, objects_create, reverse_self_service,
      string_data_append]
  · refine ⟨(reverse_self_service db.next_uuid).data, ?_⟩
    simp [redirect_to_self_service, objects_create, string_data_append]

/-- C9: the request is located by scanning the positional arguments only;
when none of them is a request — even if a keyword argument holds one —
the gate raises the missing-request `ValueError` and neither the bypass
predicate nor the view is invoked, the store untouched. -/
theorem C9_request_found_only_among_positional_args
    (view_func : List Arg → List Arg → HttpResponse) (cfg : GateConfig)
    (lok : Bool) (db : DB) (args kwargs : List Arg)
    (hnone : get_request_arg args = none) :
    inner view_func cfg lok db args kwargs =
      { outcome := GateOutcome.valueError "Request argument missing.",
        bypass_calls := 0, handler_calls := 0, db := db } := by
  simp [inner, hnone]

/-- C9 witness: a call whose only positional argument is `self` while the
request sits in the keyword arguments still fails with the missing-request
error. -/
theorem C9_witness :
    get_request_arg [Arg.other 0] = none ∧
    inner okView cfgFoo true db0 [Arg.other 0] [Arg.req reqFoo] =
      { outcome := GateOutcome.valueError "Request argument missing.",
        bypass_calls := 0, handler_calls := 0, db := db0 } :=
  ⟨rfl, C9_request_found_only_among_positional_args okView cfgFoo true db0
    [Arg.other 0] [Arg.req reqFoo] rfl⟩

/-- C10: on the allowed path with `log_visit` on, the view runs before the
audit write; if the store fails the write, the failure propagates — the
view has been invoked exactly once, yet its response is not returned and no
row is appended. -/
theorem C10_failed_log_write_after_handler_drops_response
    (view_func : List Arg → List Arg → HttpResponse) (cfg : GateConfig)
    (db : DB) (args kwargs : List Arg) (request : HttpRequest)
    (hreq : get_request_arg args = some request)
    (hbyp : bypass_applies cfg request = false)
    (hvis : request.user_is_visitor = true)
    (hscope : cfg.scope = SCOPE_ANY ∨ cfg.scope = request.visitor_scope)
    (hlog : cfg.log_visit = true) :
    (inner view_func cfg false db args kwargs).handler_calls = 1 ∧
    (inner view_func cfg false db args kwargs).outcome
        = GateOutcome.storeError "VisitorLog write failed" ∧
    (inner view_func cfg false db args kwargs).db = db := by
  refine ⟨?_, ?_, ?_⟩ <;> simp [inner, hreq, hbyp, hvis, hscope, hlog]

/-- C10 witness: `reqFoo` against `cfgFoo` with a failing store runs the
view once but surfaces the store error instead of the 200 response. -/
theorem C10_witness :
    (inner okView cfgFoo false db0 [Arg.req reqFoo] []).handler_calls = 1 ∧
    (inner okView cfgFoo false db0 [Arg.req reqFoo] []).outcome
        = GateOutcome.storeError "VisitorLog write failed" ∧
    (inner okView cfgFoo false db0 [Arg.req reqFoo] []).db = db0 :=
  C10_failed_log_write_after_handler_drops_response okView cfgFoo db0
    [Arg.req reqFoo] [] reqFoo rfl rfl rfl (Or.inr rfl) rfl

end Visitors
